import Mathlib

/-!
Shallow embedding of `doc_gen.py` (pg-inventory): a PostgreSQL schema
inventory script.  The script scans servers (`connect_and_fetch`), writes a
JSONL file and a Markdown document (`save_results`), and fans out over servers
(`generate_doc`).  Database servers are modelled as environments of query
responses; each query may fail (`Except String`), mirroring exceptions raised
by psycopg2 calls.  The scan threads the list of collected records and a trace
of connection open/close events, so that the partial-result and
resource-cleanup behaviour of the Python `try`/`except` block is visible.
-/

set_option maxRecDepth 8000

namespace DocGen

/-- Mirrors the pydantic `ServerConfig` model. -/
structure ServerConfig where
  host : String
  port : Nat
  username : String
  password : String
deriving DecidableEq

/-- One row of the `information_schema.columns` query, as returned by the
`RealDictCursor`: keys in the order of the SELECT list.  `is_nullable` is the
SQL-standard "YES"/"NO" string; `column_default` is NULL-able. -/
structure Column where
  column_name : String
  data_type : String
  is_nullable : String
  column_default : Option String
deriving DecidableEq

/-- Mirrors the pydantic `TableMetadata` model, fields in declaration order
(the order `model_dump_json` serialises them in). -/
structure TableMetadata where
  server : String
  database : String
  schema : String
  table : String
  postgres_version : String
  extensions : List String
  rowcount : Int
  primary_keys : List String
  columns : List Column
  indexes : List String
  foreign_keys : List String
deriving DecidableEq

/-- One row of `pg_class` as far as the rowcount query reads it:
`SELECT reltuples::BIGINT AS estimate FROM pg_class WHERE relname = %s`.
`relnamespace` is carried (as the schema name) to express which schema a
catalog row belongs to, but the WHERE clause never consults it. -/
structure PgClassRow where
  relnamespace : String
  relname : String
  reltuples : Int
deriving DecidableEq

/-- Environment of one per-database connection: the responses the catalog
gives to each introspection query `connect_and_fetch` runs.  A `.error e`
response models the psycopg2 call raising exception `e`. -/
structure DbWorld where
  /-- `SELECT version();` -/
  version : Except String String
  /-- `SELECT extname FROM pg_extension;` -/
  extensions : Except String (List String)
  /-- `SELECT table_schema, table_name FROM information_schema.tables WHERE
  table_schema NOT IN ('pg_catalog', 'information_schema');` rows in catalog
  enumeration order. -/
  tables : Except String (List (String × String))
  /-- The `pg_class` catalog rows, in catalog order; the rowcount query
  filters them by `relname` alone. -/
  pg_class : List PgClassRow
  /-- columns query for (schema, table). -/
  columnsQ : String → String → Except String (List Column)
  /-- primary-key column list for (schema, table). -/
  primaryKeysQ : String → String → Except String (List String)
  /-- `indexdef` strings from `pg_indexes` for (schema, table). -/
  indexesQ : String → String → Except String (List String)
  /-- (conname, definition) pairs from `pg_constraint` for (schema, table). -/
  foreignKeysQ : String → String → Except String (List (String × String))

/-- Environment of one server: the administrative connection (to dbname
"postgres"), the database listing, and the per-database connections. -/
structure ServerWorld where
  /-- `psycopg2.connect(..., dbname="postgres")`: ok, or raises. -/
  adminConnect : Except String Unit
  /-- `SELECT datname FROM pg_database WHERE datistemplate = false;` -/
  listDatabases : Except String (List String)
  /-- `psycopg2.connect(..., dbname=db)`: the per-database connection. -/
  dbConnect : String → Except String DbWorld

/-- Connection open/close events, in the order the scan performs them. -/
inductive ConnEvent where
  | openAdmin
  | openDb (db : String)
  | closeDb (db : String)
  | closeAdmin
deriving DecidableEq

/-- `f"{server.host}:{server.port}"`, used both in each record's `server`
field and in the error log line. -/
def serverIdent (cfg : ServerConfig) : String :=
  cfg.host ++ ":" ++ toString cfg.port

/-- The rowcount query: `SELECT reltuples::BIGint AS estimate FROM pg_class
WHERE relname = %s;` followed by `fetchone()["estimate"]`.  Matches on the
bare relation name only; `fetchone()` yields the first matching row, and
subscripting a `None` result raises. -/
def fetchRowcount (w : DbWorld) (table : String) : Except String Int :=
  match (w.pg_class.filter (fun r => r.relname = table)).head? with
  | some row => .ok row.reltuples
  | none => .error "TypeError: NoneType is not subscriptable"

/-- The body of the per-table loop: the four per-table queries, then the
`TableMetadata` constructor call.  The first query that raises aborts the
table with that exception. -/
def processTable (cfg : ServerConfig) (db version : String) (exts : List String)
    (w : DbWorld) (schema table : String) : Except String TableMetadata :=
  match fetchRowcount w table with
  | .error e => .error e
  | .ok rowcount =>
    match w.columnsQ schema table with
    | .error e => .error e
    | .ok columns =>
      match w.primaryKeysQ schema table with
      | .error e => .error e
      | .ok primary_keys =>
        match w.indexesQ schema table with
        | .error e => .error e
        | .ok indexes =>
          match w.foreignKeysQ schema table with
          | .error e => .error e
          | .ok fkRows =>
            .ok { server := serverIdent cfg
                  database := db
                  schema := schema
                  table := table
                  postgres_version := version
                  extensions := exts
                  rowcount := rowcount
                  primary_keys := primary_keys
                  columns := columns
                  indexes := indexes
                  foreign_keys := fkRows.map (fun r => r.1 ++ ": " ++ r.2) }

/-- The `for t in tables` loop: records are appended one by one; an exception
keeps the records appended so far and propagates the error. -/
def processTables (cfg : ServerConfig) (db version : String) (exts : List String)
    (w : DbWorld) : List (String × String) → List TableMetadata × Option String
  | [] => ([], none)
  | t :: ts =>
    match processTable cfg db version exts w t.1 t.2 with
    | .error e => ([], some e)
    | .ok r =>
      match processTables cfg db version exts w ts with
      | (rs, err) => (r :: rs, err)

/-- One iteration of the `for db in databases` loop: open the per-database
connection, run the version / extensions / tables queries, process every
table, then `db_conn.close()`.  Returns the records appended, the connection
events, and the exception if one was raised (in which case no close event for
this connection is emitted: the Python code has no `finally`). -/
def processDb (cfg : ServerConfig) (w : ServerWorld) (db : String) :
    List TableMetadata × List ConnEvent × Option String :=
  match w.dbConnect db with
  | .error e => ([], [], some e)
  | .ok dbw =>
    match dbw.version with
    | .error e => ([], [.openDb db], some e)
    | .ok version =>
      match dbw.extensions with
      | .error e => ([], [.openDb db], some e)
      | .ok exts =>
        match dbw.tables with
        | .error e => ([], [.openDb db], some e)
        | .ok tables =>
          match processTables cfg db version exts dbw tables with
          | (rs, some e) => (rs, [.openDb db], some e)
          | (rs, none) => (rs, [.openDb db, .closeDb db], none)

/-- The whole `for db in databases` loop. -/
def processDbs (cfg : ServerConfig) (w : ServerWorld) :
    List String → List TableMetadata × List ConnEvent × Option String
  | [] => ([], [], none)
  | db :: dbs =>
    match processDb cfg w db with
    | (rs, tr, some e) => (rs, tr, some e)
    | (rs, tr, none) =>
      match processDbs cfg w dbs with
      | (rs2, tr2, err) => (rs ++ rs2, tr ++ tr2, err)

/-- The `try` block of `connect_and_fetch`: open the administrative
connection, list the non-template databases, loops over them, then
`conn.close()`.  An exception anywhere aborts with the records and events
accumulated so far (no `finally`: nothing further is closed). -/
def scanServer (cfg : ServerConfig) (w : ServerWorld) :
    List TableMetadata × List ConnEvent × Option String :=
  match w.adminConnect with
  | .error e => ([], [], some e)
  | .ok _ =>
    match w.listDatabases with
    | .error e => ([], [.openAdmin], some e)
    | .ok dbs =>
      match processDbs cfg w dbs with
      | (rs, tr, some e) => (rs, .openAdmin :: tr, some e)
      | (rs, tr, none) => (rs, .openAdmin :: (tr ++ [.closeAdmin]), none)

/-- The `logging.error(f"Error scanning server {server.host}:{server.port} →
{e}")` message of the `except` handler. -/
def logMessage (cfg : ServerConfig) (e : String) : String :=
  "Error scanning server " ++ serverIdent cfg ++ " → " ++ e

/-- `connect_and_fetch`: runs the scan; the `except Exception` handler
catches any exception, logs it, and the function returns `metadata` — the
records collected up to that point.  Result: (records, logged error line). -/
def connect_and_fetch (cfg : ServerConfig) (w : ServerWorld) :
    List TableMetadata × Option String :=
  match scanServer cfg w with
  | (rs, _, some e) => (rs, some (logMessage cfg e))
  | (rs, _, none) => (rs, none)

/-! ### Report writer: `save_results` -/

/-- One hexadecimal digit, for `\u00XX` escapes. -/
def hexDigit (n : Nat) : String :=
  if n = 0 then "0" else if n = 1 then "1" else if n = 2 then "2"
  else if n = 3 then "3" else if n = 4 then "4" else if n = 5 then "5"
  else if n = 6 then "6" else if n = 7 then "7" else if n = 8 then "8"
  else if n = 9 then "9" else if n = 10 then "a" else if n = 11 then "b"
  else if n = 12 then "c" else if n = 13 then "d" else if n = 14 then "e"
  else "f"

/-- JSON string escaping as `model_dump_json` performs it: quote, backslash
and control characters escaped, everything else emitted verbatim. -/
def jsonEscapeChar (c : Char) : String :=
  if c = '"' then "\\\""
  else if c = '\\' then "\\\\"
  else if c = '\n' then "\\n"
  else if c = '\r' then "\\r"
  else if c = '\t' then "\\t"
  else if c.toNat < 32 then "\\u00" ++ hexDigit (c.toNat / 16) ++ hexDigit (c.toNat % 16)
  else String.singleton c

def jsonStringLit (s : String) : String :=
  "\"" ++ String.join (s.toList.map jsonEscapeChar) ++ "\""

def jsonArray (items : List String) : String :=
  "[" ++ String.intercalate "," items ++ "]"

/-- One element of the `columns` array: a dict with the keys of the columns
SELECT, in insertion order. -/
def jsonOfColumn (c : Column) : String :=
  "\x7b\"column_name\":" ++ jsonStringLit c.column_name ++
  ",\"data_type\":" ++ jsonStringLit c.data_type ++
  ",\"is_nullable\":" ++ jsonStringLit c.is_nullable ++
  ",\"column_default\":" ++
    (match c.column_default with
     | none => "null"
     | some d => jsonStringLit d) ++ "\x7d"

/-- `item.model_dump_json()`: compact JSON, fields in model declaration
order. -/
def jsonOfTableMetadata (m : TableMetadata) : String :=
  "\x7b\"server\":" ++ jsonStringLit m.server ++
  ",\"database\":" ++ jsonStringLit m.database ++
  ",\"schema\":" ++ jsonStringLit m.schema ++
  ",\"table\":" ++ jsonStringLit m.table ++
  ",\"postgres_version\":" ++ jsonStringLit m.postgres_version ++
  ",\"extensions\":" ++ jsonArray (m.extensions.map jsonStringLit) ++
  ",\"rowcount\":" ++ toString m.rowcount ++
  ",\"primary_keys\":" ++ jsonArray (m.primary_keys.map jsonStringLit) ++
  ",\"columns\":" ++ jsonArray (m.columns.map jsonOfColumn) ++
  ",\"indexes\":" ++ jsonArray (m.indexes.map jsonStringLit) ++
  ",\"foreign_keys\":" ++ jsonArray (m.foreign_keys.map jsonStringLit) ++ "\x7d"

/-- Content of `postgres_inventory.jsonl`: `f.write(item.model_dump_json() +
"\n")` per record. -/
def jsonlContent (metadata : List TableMetadata) : String :=
  String.join (metadata.map (fun item => jsonOfTableMetadata item ++ "\n"))

/-- Python `col['column_default'] or ''`: `None` and the empty string (the
falsy strings) both coalesce to the empty string. -/
def orEmpty (d : Option String) : String :=
  match d with
  | none => ""
  | some s => if s = "" then "" else s

/-- The Markdown writer as a sequence of write events: one constructor per
(group of) `f.write` call(s) in the body of the per-record loop. -/
inductive MdEvent where
  | header (server database schema table : String)
  | versionLine (v : String)
  | extensionsLine (exts : List String)
  | rowcountLine (n : Int)
  | pkLine (pks : List String)
  | columnsHeader
  | columnRow (c : Column)
  | indexesHeader
  | indexItem (s : String)
  | fkHeader
  | fkItem (s : String)
  | separator
deriving DecidableEq

def MdEvent.isPkLine : MdEvent → Bool
  | .pkLine _ => true
  | _ => false

def MdEvent.isIndexesHeader : MdEvent → Bool
  | .indexesHeader => true
  | _ => false

def MdEvent.isFkHeader : MdEvent → Bool
  | .fkHeader => true
  | _ => false

/-- The exact string each write event sends to the file. -/
def renderEvent : MdEvent → String
  | .header server database schema table =>
      "## " ++ server ++ " · " ++ database ++ " · " ++ schema ++ "." ++ table ++ "\n\n"
  | .versionLine v => "- PostgreSQL Version: " ++ v ++ "\n"
  | .extensionsLine exts => "- Extensions: " ++ String.intercalate ", " exts ++ "\n"
  | .rowcountLine n => "- Rowcount: " ++ toString n ++ "\n"
  | .pkLine pks => "- Primary Key: " ++ String.intercalate ", " pks ++ "\n"
  | .columnsHeader =>
      "\n### Columns\n\n" ++ "| Name | Type | Nullable | Default |\n" ++
      "|------|------|----------|---------|\n"
  | .columnRow c =>
      "| " ++ c.column_name ++ " | " ++ c.data_type ++ " | " ++ c.is_nullable ++
      " | " ++ orEmpty c.column_default ++ " |\n"
  | .indexesHeader => "\n### Indexes\n"
  | .indexItem s => "- " ++ s ++ "\n"
  | .fkHeader => "\n### Foreign Keys\n"
  | .fkItem s => "- " ++ s ++ "\n"
  | .separator => "\n---\n\n"

/-- The per-record body of the Markdown loop: the write events in program
order, with `if item.primary_keys:`, `if item.indexes:` and
`if item.foreign_keys:` guarding their sections. -/
def mdEvents (item : TableMetadata) : List MdEvent :=
  [.header item.server item.database item.schema item.table,
   .versionLine item.postgres_version,
   .extensionsLine item.extensions,
   .rowcountLine item.rowcount] ++
  (if item.primary_keys.isEmpty then [] else [.pkLine item.primary_keys]) ++
  [.columnsHeader] ++ item.columns.map .columnRow ++
  (if item.indexes.isEmpty then [] else .indexesHeader :: item.indexes.map .indexItem) ++
  (if item.foreign_keys.isEmpty then [] else .fkHeader :: item.foreign_keys.map .fkItem) ++
  [.separator]

/-- Content of `postgres_inventory.md`. -/
def mdContent (metadata : List TableMetadata) : String :=
  String.join (metadata.map (fun item => String.join ((mdEvents item).map renderEvent)))

/-- Fixed output file names (`out_path / "postgres_inventory.jsonl"` and
`out_path / "postgres_inventory.md"`). -/
def jsonlName : String := "postgres_inventory.jsonl"

def mdName : String := "postgres_inventory.md"

/-- Filesystem model: (directory, file name) to contents. -/
def FileSystem : Type := String × String → Option String

def fsWrite (fs : FileSystem) (path : String × String) (content : String) : FileSystem :=
  fun p => if p = path then some content else fs p

/-- `save_results(output_dir, metadata)`: computes a timestamp (never used),
then overwrites the JSONL file and then the Markdown file in the output
directory, both under fixed names. -/
def save_results (timestamp : String) (output_dir : String)
    (metadata : List TableMetadata) (fs : FileSystem) : FileSystem :=
  let _ := timestamp
  fsWrite (fsWrite fs (output_dir, jsonlName) (jsonlContent metadata))
    (output_dir, mdName) (mdContent metadata)

/-- `generate_doc` with `parallel=False`: the sequential loop
`for s in server_configs: all_metadata.extend(connect_and_fetch(s))`.
The environment `env` supplies each server's world.  (With `parallel=True`
the same per-server calls run on a thread pool and are merged in completion
order; only the sequential branch is modelled.) -/
def generate_doc (env : ServerConfig → ServerWorld) (servers : List ServerConfig) :
    List TableMetadata :=
  servers.foldl (fun acc s => acc ++ (connect_and_fetch s (env s)).1) []

/-! ### Concrete catalog states used to settle the claims -/

/-- The server of the spec's concrete scenario. -/
def cfg5 : ServerConfig := { host := "host", port := 5432, username := "u", password := "p" }

/-- Per-database catalog of the concrete scenario: `public.users` with two
columns, primary key `id`, no indexes, no foreign keys, rowcount 42. -/
def dbw5 : DbWorld :=
  { version := .ok "PostgreSQL 15.2"
    extensions := .ok ["pgcrypto"]
    tables := .ok [("public", "users")]
    pg_class := [{ relnamespace := "public", relname := "users", reltuples := 42 }]
    columnsQ := fun _ _ => .ok
      [{ column_name := "id", data_type := "integer", is_nullable := "NO", column_default := none },
       { column_name := "name", data_type := "text", is_nullable := "YES", column_default := none }]
    primaryKeysQ := fun _ _ => .ok ["id"]
    indexesQ := fun _ _ => .ok []
    foreignKeysQ := fun _ _ => .ok [] }

/-- Server of the concrete scenario: one database `mydb`. -/
def w5 : ServerWorld :=
  { adminConnect := .ok ()
    listDatabases := .ok ["mydb"]
    dbConnect := fun db => if db = "mydb" then .ok dbw5 else .error "database does not exist" }

def env5 : ServerConfig → ServerWorld := fun _ => w5

/-- The record the concrete scenario produces. -/
def rec5 : TableMetadata :=
  { server := "host:5432", database := "mydb", schema := "public", table := "users"
    postgres_version := "PostgreSQL 15.2", extensions := ["pgcrypto"], rowcount := 42
    primary_keys := ["id"]
    columns :=
      [{ column_name := "id", data_type := "integer", is_nullable := "NO", column_default := none },
       { column_name := "name", data_type := "text", is_nullable := "YES", column_default := none }]
    indexes := [], foreign_keys := [] }

/-- Empty filesystem. -/
def fsEmpty : FileSystem := fun _ => none

/-- Server for the table-failure scenario. -/
def cfg2 : ServerConfig := { host := "h", port := 5432, username := "u", password := "p" }

/-- Database whose only table fails its columns query. -/
def dbwFailCols : DbWorld :=
  { version := .ok "PostgreSQL 15.2"
    extensions := .ok []
    tables := .ok [("public", "t1")]
    pg_class := [{ relnamespace := "public", relname := "t1", reltuples := 5 }]
    columnsQ := fun _ _ => .error "permission denied for table t1"
    primaryKeysQ := fun _ _ => .ok []
    indexesQ := fun _ _ => .ok []
    foreignKeysQ := fun _ _ => .ok [] }

/-- Healthy database with one collectible table `public.t2`. -/
def dbwGood2 : DbWorld :=
  { version := .ok "PostgreSQL 15.2"
    extensions := .ok []
    tables := .ok [("public", "t2")]
    pg_class := [{ relnamespace := "public", relname := "t2", reltuples := 7 }]
    columnsQ := fun _ _ => .ok []
    primaryKeysQ := fun _ _ => .ok []
    indexesQ := fun _ _ => .ok []
    foreignKeysQ := fun _ _ => .ok [] }

/-- Two databases: `db1` (one failing table) before `db2` (healthy). -/
def w2 : ServerWorld :=
  { adminConnect := .ok ()
    listDatabases := .ok ["db1", "db2"]
    dbConnect := fun db =>
      if db = "db1" then .ok dbwFailCols
      else if db = "db2" then .ok dbwGood2
      else .error "database does not exist" }

/-- Same server with only `db2` listed: shows `db2` is collectible. -/
def w2only2 : ServerWorld :=
  { adminConnect := .ok ()
    listDatabases := .ok ["db2"]
    dbConnect := w2.dbConnect }

/-- Server for the connection-leak scenario. -/
def cfg3 : ServerConfig := { host := "h3", port := 5433, username := "u", password := "p" }

/-- Database whose very first query (version) raises. -/
def dbwVersionBoom : DbWorld :=
  { version := .error "boom"
    extensions := .ok []
    tables := .ok []
    pg_class := []
    columnsQ := fun _ _ => .ok []
    primaryKeysQ := fun _ _ => .ok []
    indexesQ := fun _ _ => .ok []
    foreignKeysQ := fun _ _ => .ok [] }

/-- One database whose scan raises right after its connection is opened. -/
def w3 : ServerWorld :=
  { adminConnect := .ok ()
    listDatabases := .ok ["db1"]
    dbConnect := fun _ => .ok dbwVersionBoom }

/-- Server for the duplicate-relname scenario. -/
def cfg4 : ServerConfig := { host := "h4", port := 5432, username := "u", password := "p" }

/-- Catalog where schemas `other` and `public` both own a table `users`;
`other.users` (estimate 100) precedes `public.users` (estimate 42) in
`pg_class`.  Only `public.users` is enumerated for collection. -/
def dbw4 : DbWorld :=
  { version := .ok "PostgreSQL 15.2"
    extensions := .ok []
    tables := .ok [("public", "users")]
    pg_class :=
      [{ relnamespace := "other", relname := "users", reltuples := 100 },
       { relnamespace := "public", relname := "users", reltuples := 42 }]
    columnsQ := fun _ _ => .ok []
    primaryKeysQ := fun _ _ => .ok []
    indexesQ := fun _ _ => .ok []
    foreignKeysQ := fun _ _ => .ok [] }

def w4 : ServerWorld :=
  { adminConnect := .ok ()
    listDatabases := .ok ["mydb"]
    dbConnect := fun _ => .ok dbw4 }

/-- Record of `public.users` as scanned under `dbw4`. -/
def c4recPublic : TableMetadata :=
  { server := "h4:5432", database := "mydb", schema := "public", table := "users"
    postgres_version := "PostgreSQL 15.2", extensions := [], rowcount := 100
    primary_keys := [], columns := [], indexes := [], foreign_keys := [] }

/-- Record of `other.users` as it would be scanned under `dbw4`. -/
def c4recOther : TableMetadata :=
  { c4recPublic with schema := "other" }

/-- A record whose single column has a NULL default. -/
def recDefaultNull : TableMetadata :=
  { server := "s", database := "d", schema := "public", table := "t"
    postgres_version := "v", extensions := [], rowcount := 0, primary_keys := []
    columns := [{ column_name := "c", data_type := "text", is_nullable := "YES",
                  column_default := none }]
    indexes := [], foreign_keys := [] }

/-- The same record with an empty-string default instead. -/
def recDefaultEmpty : TableMetadata :=
  { recDefaultNull with
    columns := [{ column_name := "c", data_type := "text", is_nullable := "YES",
                  column_default := some "" }] }

/-- Server for the denormalization scenario. -/
def cfg9 : ServerConfig := { host := "h9", port := 5432, username := "u", password := "p" }

/-- One database owning two tables in different schemas. -/
def dbw9 : DbWorld :=
  { version := .ok "PostgreSQL 16.0"
    extensions := .ok ["uuid-ossp"]
    tables := .ok [("public", "a"), ("sales", "b")]
    pg_class :=
      [{ relnamespace := "public", relname := "a", reltuples := 1 },
       { relnamespace := "sales", relname := "b", reltuples := 2 }]
    columnsQ := fun _ _ => .ok []
    primaryKeysQ := fun _ _ => .ok []
    indexesQ := fun _ _ => .ok []
    foreignKeysQ := fun _ _ => .ok [] }

def w9 : ServerWorld :=
  { adminConnect := .ok ()
    listDatabases := .ok ["d"]
    dbConnect := fun _ => .ok dbw9 }

/-- The two records the scan of `w9` produces. -/
def r9a : TableMetadata :=
  { server := "h9:5432", database := "d", schema := "public", table := "a"
    postgres_version := "PostgreSQL 16.0", extensions := ["uuid-ossp"], rowcount := 1
    primary_keys := [], columns := [], indexes := [], foreign_keys := [] }

def r9b : TableMetadata :=
  { r9a with schema := "sales", table := "b", rowcount := 2 }

/-! ### Theorems -/

/-- C1: on any exception at any point of the scan, `connect_and_fetch` logs
the failure with the server identity (`host:port`) and returns exactly the
records assembled before the exception; on a clean scan it returns all
records and logs nothing.  The exception never escapes: the function always
returns a plain record list. -/
theorem c1_error_boundary (cfg : ServerConfig) (w : ServerWorld) :
    (∀ e, (scanServer cfg w).2.2 = some e →
        connect_and_fetch cfg w =
          ((scanServer cfg w).1,
            some ("Error scanning server " ++ serverIdent cfg ++ " → " ++ e))) ∧
    ((scanServer cfg w).2.2 = none →
        connect_and_fetch cfg w = ((scanServer cfg w).1, none)) := by
  rcases h : scanServer cfg w with ⟨rs, tr, err⟩
  constructor
  · intro e he
    simp only at he
    subst he
    simp [connect_and_fetch, h, logMessage]
  · intro he
    simp only at he
    subst he
    simp [connect_and_fetch, h]

theorem c1_error_boundary_witness :
    (scanServer cfg3 w3).2.2 = some "boom" ∧
      connect_and_fetch cfg3 w3 =
        ([], some ("Error scanning server " ++ serverIdent cfg3 ++ " → " ++ "boom")) :=
  ⟨rfl, (c1_error_boundary cfg3 w3).1 "boom" rfl⟩

/-- C5: the concrete scenario of the spec — one server, one database `mydb`,
one table `public.users` — flows through scan, fan-out and writer into
exactly the expected JSONL line. -/
theorem c5_concrete_pipeline :
    generate_doc env5 [cfg5] = [rec5] ∧
    save_results "20250101_000000" "out" (generate_doc env5 [cfg5]) fsEmpty
        ("out", jsonlName) =
      some ("\x7b\"server\":\"host:5432\",\"database\":\"mydb\",\"schema\":\"public\",\"table\":\"users\",\"postgres_version\":\"PostgreSQL 15.2\",\"extensions\":[\"pgcrypto\"],\"rowcount\":42,\"primary_keys\":[\"id\"],\"columns\":[\x7b\"column_name\":\"id\",\"data_type\":\"integer\",\"is_nullable\":\"NO\",\"column_default\":null\x7d,\x7b\"column_name\":\"name\",\"data_type\":\"text\",\"is_nullable\":\"YES\",\"column_default\":null\x7d],\"indexes\":[],\"foreign_keys\":[]\x7d" ++ "\n") := by
  constructor
  · decide
  · decide

/-- C7: a second run of `save_results` fully overwrites both fixed-name
files — afterwards they hold exactly the second input's content, with no
trace of the first run or of the prior filesystem state — and the computed
timestamp influences nothing, in particular neither filename. -/
theorem c7_overwrite_fixed_names (ts1 ts2 dir : String) (fs : FileSystem)
    (rs1 rs2 : List TableMetadata) :
    (save_results ts2 dir rs2 (save_results ts1 dir rs1 fs)) (dir, jsonlName) =
        some (jsonlContent rs2) ∧
    (save_results ts2 dir rs2 (save_results ts1 dir rs1 fs)) (dir, mdName) =
        some (mdContent rs2) ∧
    (∀ ts ts' rs fs0, save_results ts dir rs fs0 = save_results ts' dir rs fs0) ∧
    jsonlName = "postgres_inventory.jsonl" ∧ mdName = "postgres_inventory.md" := by
  have hne : jsonlName ≠ mdName := by decide
  refine ⟨?_, ?_, fun ts ts' rs fs0 => rfl, rfl, rfl⟩
  · simp [save_results, fsWrite, Prod.ext_iff, hne]
  · simp [save_results, fsWrite]

/-- C8: with `parallel=False`, the fan-out is the sequential `extend` loop,
and its result is precisely the concatenation of the per-server scan results
in the input order of the credentials — no deduplication and no
reordering. -/
theorem c8_sequential_concat (env : ServerConfig → ServerWorld)
    (servers : List ServerConfig) :
    generate_doc env servers =
      (servers.map (fun s => (connect_and_fetch s (env s)).1)).flatten := by
  have aux : ∀ (l : List ServerConfig) (acc : List TableMetadata),
      l.foldl (fun acc s => acc ++ (connect_and_fetch s (env s)).1) acc =
        acc ++ (l.map (fun s => (connect_and_fetch s (env s)).1)).flatten := by
    intro l
    induction l with
    | nil => intro acc; simp
    | cons s l ih => intro acc; simp [ih, List.append_assoc]
  simpa [generate_doc] using aux servers []

/-- C10: the Markdown writer coalesces a falsy column default (`None` or the
empty string) to an empty Default cell, so a NULL default and an
empty-string default are indistinguishable in Markdown while the JSONL
output (which keeps `null`) distinguishes them. -/
theorem c10_falsy_default_coalesced :
    (∀ d : Option String, orEmpty d = "" ↔ (d = none ∨ d = some "")) ∧
    mdContent [recDefaultNull] = mdContent [recDefaultEmpty] ∧
    jsonlContent [recDefaultNull] ≠ jsonlContent [recDefaultEmpty] := by
  refine ⟨?_, by decide, by decide⟩
  intro d
  cases d with
  | none => simp [orEmpty]
  | some s =>
    by_cases hs : s = ""
    · simp [orEmpty, hs]
    · simp [orEmpty, hs]

/-- A successfully assembled record carries the rowcount that the bare-name
`pg_class` lookup returned. -/
theorem processTable_ok_rowcount {cfg : ServerConfig} {db version : String}
    {exts : List String} {w : DbWorld} {schema table : String} {r : TableMetadata}
    (h : processTable cfg db version exts w schema table = .ok r) :
    fetchRowcount w table = .ok r.rowcount := by
  unfold processTable at h
  rcases hrc : fetchRowcount w table with e | rc <;> rw [hrc] at h
  · exact Except.noConfusion h
  rcases hc : w.columnsQ schema table with e | cols <;> rw [hc] at h
  · exact Except.noConfusion h
  rcases hpk : w.primaryKeysQ schema table with e | pks <;> rw [hpk] at h
  · exact Except.noConfusion h
  rcases hix : w.indexesQ schema table with e | ixs <;> rw [hix] at h
  · exact Except.noConfusion h
  rcases hfk : w.foreignKeysQ schema table with e | fks <;> rw [hfk] at h
  · exact Except.noConfusion h
  cases h
  rfl

/-- A database processed without an exception opens its connection and closes
it again. -/
theorem processDb_none_trace {cfg : ServerConfig} {w : ServerWorld} {db : String}
    (h : (processDb cfg w db).2.2 = none) :
    (processDb cfg w db).2.1 = [.openDb db, .closeDb db] := by
  rcases hconn : w.dbConnect db with e | dbw
  · simp [processDb, hconn] at h
  rcases hv : dbw.version with e | version
  · simp [processDb, hconn, hv] at h
  rcases hx : dbw.extensions with e | exts
  · simp [processDb, hconn, hv, hx] at h
  rcases ht : dbw.tables with e | tables
  · simp [processDb, hconn, hv, hx, ht] at h
  rcases hpt : processTables cfg db version exts dbw tables with ⟨rs, err⟩
  cases err with
  | some e => simp [processDb, hconn, hv, hx, ht, hpt] at h
  | none => simp [processDb, hconn, hv, hx, ht, hpt]

/-- C2 fails on the code: with `db1` (whose single table's columns query
raises) listed before `db2` (healthy, one collectible table), the scan
returns no record at all — in particular none for `db2` — although the same
server world yields a `db2` record when `db1` is not in the way.  One bad
table therefore does abort collection of the remaining databases. -/
theorem c2_counterexample :
    (connect_and_fetch cfg2 w2).1 = [] ∧
    (connect_and_fetch cfg2 w2only2).1.map (fun r => r.database) = ["db2"] := by
  constructor
  · decide
  · decide

/-- C2 (amended): a query failure in one database aborts the whole per-server
loop: the scan keeps only the records assembled before the failure, and the
databases after the failing one contribute nothing. -/
theorem c2_abort_after_failure (cfg : ServerConfig) (w : ServerWorld)
    (db : String) (dbs : List String) (e : String)
    (h : (processDb cfg w db).2.2 = some e) :
    (processDbs cfg w (db :: dbs)).1 = (processDb cfg w db).1 ∧
    (processDbs cfg w (db :: dbs)).2.2 = some e := by
  rcases hp : processDb cfg w db with ⟨rs, tr, err⟩
  rw [hp] at h
  simp only at h
  subst h
  simp [processDbs, hp]

theorem c2_abort_after_failure_witness :
    (processDbs cfg2 w2 ["db1", "db2"]).1 = (processDb cfg2 w2 "db1").1 ∧
    (processDbs cfg2 w2 ["db1", "db2"]).2.2 = some "permission denied for table t1" :=
  c2_abort_after_failure cfg2 w2 "db1" ["db2"] "permission denied for table t1" (by decide)

/-- C3 fails on the code: when the first query on `db1`'s connection raises,
the scan has opened the administrative connection and the `db1` connection,
and (there being no `finally`) closes neither before returning. -/
theorem c3_counterexample :
    ConnEvent.openAdmin ∈ (scanServer cfg3 w3).2.1 ∧
    ConnEvent.openDb "db1" ∈ (scanServer cfg3 w3).2.1 ∧
    ConnEvent.closeDb "db1" ∉ (scanServer cfg3 w3).2.1 ∧
    ConnEvent.closeAdmin ∉ (scanServer cfg3 w3).2.1 := by
  decide

/-- On an exception-free run, the per-database loop's connection events are
exactly open-then-close per database, in order. -/
theorem processDbs_none_trace {cfg : ServerConfig} {w : ServerWorld} :
    ∀ dbs : List String, (processDbs cfg w dbs).2.2 = none →
      (processDbs cfg w dbs).2.1 =
        (dbs.map (fun db => [ConnEvent.openDb db, .closeDb db])).flatten := by
  intro dbs
  induction dbs with
  | nil => intro _; simp [processDbs]
  | cons db dbs ih =>
    intro h
    rcases hp : processDb cfg w db with ⟨rs, tr, err⟩
    cases err with
    | some e => simp [processDbs, hp] at h
    | none =>
      rcases hq : processDbs cfg w dbs with ⟨rs2, tr2, err2⟩
      have htr : tr = [ConnEvent.openDb db, .closeDb db] := by
        have h1 := @processDb_none_trace cfg w db (by rw [hp])
        rw [hp] at h1
        exact h1
      have herr2 : err2 = none := by
        simp only [processDbs, hp, hq] at h
        simpa using h
      have htr2 : tr2 = (dbs.map (fun db => [ConnEvent.openDb db, .closeDb db])).flatten := by
        have h2 := ih (by rw [hq, herr2])
        rw [hq] at h2
        exact h2
      simp only [processDbs, hp, hq]
      simp [htr, htr2]

/-- C3 (amended): on every scan that completes without an exception, the
connection events are precisely: open admin, then open/close per listed
database, then close admin — every opened connection is closed before the
scan returns.  (The error path, per `c3_counterexample`, closes nothing.) -/
theorem c3_close_on_success (cfg : ServerConfig) (w : ServerWorld)
    (dbs : List String) (hadmin : w.adminConnect = .ok ())
    (hdbs : w.listDatabases = .ok dbs)
    (h : (scanServer cfg w).2.2 = none) :
    (scanServer cfg w).2.1 =
      .openAdmin ::
        ((dbs.map (fun db => [ConnEvent.openDb db, .closeDb db])).flatten ++
          [.closeAdmin]) := by
  rcases hq : processDbs cfg w dbs with ⟨rs, tr, err⟩
  cases err with
  | some e =>
    simp only [scanServer, hadmin, hdbs, hq] at h
    simp at h
  | none =>
    have htr : tr = (dbs.map (fun db => [ConnEvent.openDb db, .closeDb db])).flatten := by
      have h2 := processDbs_none_trace dbs (by rw [hq])
      rw [hq] at h2
      exact h2
    simp only [scanServer, hadmin, hdbs, hq]
    simp [htr]

theorem c3_close_on_success_witness :
    (scanServer cfg5 w5).2.1 =
      [ConnEvent.openAdmin, .openDb "mydb", .closeDb "mydb", .closeAdmin] :=
  c3_close_on_success cfg5 w5 ["mydb"] rfl rfl rfl

/-- C4: the recorded rowcount is insensitive to the schema of the table being
collected (the `pg_class` lookup matches the bare `relname` only), and in the
concrete catalog where `other.users` (estimate 100) shadows `public.users`
(estimate 42), the record for `public.users` carries 100 — the estimate of
the other schema's table. -/
theorem c4_rowcount_bare_name_match :
    (∀ (cfg : ServerConfig) (db version : String) (exts : List String)
        (w : DbWorld) (schema1 schema2 table : String) (r1 r2 : TableMetadata),
        processTable cfg db version exts w schema1 table = .ok r1 →
        processTable cfg db version exts w schema2 table = .ok r2 →
        r1.rowcount = r2.rowcount) ∧
    ((connect_and_fetch cfg4 w4).1 = [c4recPublic] ∧
      c4recPublic.schema = "public" ∧ c4recPublic.rowcount = 100 ∧
      dbw4.pg_class =
        [{ relnamespace := "other", relname := "users", reltuples := 100 },
         { relnamespace := "public", relname := "users", reltuples := 42 }]) := by
  constructor
  · intro cfg db version exts w schema1 schema2 table r1 r2 h1 h2
    have g1 := processTable_ok_rowcount h1
    have g2 := processTable_ok_rowcount h2
    rw [g1] at g2
    injection g2
  · exact ⟨by decide, rfl, rfl, rfl⟩

theorem c4_witness : c4recPublic.rowcount = c4recOther.rowcount :=
  c4_rowcount_bare_name_match.1 cfg4 "mydb" "PostgreSQL 15.2" [] dbw4
    "public" "other" "users" c4recPublic c4recOther rfl rfl

/-- C6: for every record, the Markdown writer emits the "Primary Key" line
exactly when `primary_keys` is non-empty (the columns table is emitted
regardless), the "Indexes" section exactly when `indexes` is non-empty, and
the "Foreign Keys" section exactly when `foreign_keys` is non-empty. -/
theorem c6_conditional_sections (item : TableMetadata) :
    ((mdEvents item).any MdEvent.isPkLine = true ↔ item.primary_keys ≠ []) ∧
    MdEvent.columnsHeader ∈ mdEvents item ∧
    ((mdEvents item).any MdEvent.isIndexesHeader = true ↔ item.indexes ≠ []) ∧
    ((mdEvents item).any MdEvent.isFkHeader = true ↔ item.foreign_keys ≠ []) := by
  by_cases hpk : item.primary_keys = [] <;>
    by_cases hix : item.indexes = [] <;>
      by_cases hfk : item.foreign_keys = [] <;>
        simp [mdEvents, MdEvent.isPkLine, MdEvent.isIndexesHeader, MdEvent.isFkHeader,
          hpk, hix, hfk, List.isEmpty_iff]

/-- A successfully assembled record carries the server identity, the
database name, and the once-per-database version and extensions values it
was built from. -/
theorem processTable_ok_fields {cfg : ServerConfig} {db version : String}
    {exts : List String} {w : DbWorld} {schema table : String} {r : TableMetadata}
    (h : processTable cfg db version exts w schema table = .ok r) :
    r.server = serverIdent cfg ∧ r.database = db ∧ r.postgres_version = version ∧
      r.extensions = exts := by
  unfold processTable at h
  rcases hrc : fetchRowcount w table with e | rc <;> rw [hrc] at h
  · exact Except.noConfusion h
  rcases hc : w.columnsQ schema table with e | cols <;> rw [hc] at h
  · exact Except.noConfusion h
  rcases hpk : w.primaryKeysQ schema table with e | pks <;> rw [hpk] at h
  · exact Except.noConfusion h
  rcases hix : w.indexesQ schema table with e | ixs <;> rw [hix] at h
  · exact Except.noConfusion h
  rcases hfk : w.foreignKeysQ schema table with e | fks <;> rw [hfk] at h
  · exact Except.noConfusion h
  cases h
  exact ⟨rfl, rfl, rfl, rfl⟩

/-- Every record collected by the per-table loop came from a successful
`processTable` call. -/
theorem mem_processTables {cfg : ServerConfig} {db version : String}
    {exts : List String} {w : DbWorld} :
    ∀ {ts : List (String × String)} {r : TableMetadata},
      r ∈ (processTables cfg db version exts w ts).1 →
      ∃ schema table, processTable cfg db version exts w schema table = .ok r := by
  intro ts
  induction ts with
  | nil => intro r h; simp [processTables] at h
  | cons t ts ih =>
    intro r h
    rcases hp : processTable cfg db version exts w t.1 t.2 with e | r0
    · simp [processTables, hp] at h
    · rcases hq : processTables cfg db version exts w ts with ⟨rs, err⟩
      simp only [processTables, hp, hq] at h
      simp at h
      rcases h with h | h
      · exact ⟨t.1, t.2, by rw [hp, h]⟩
      · exact ih (by rw [hq]; exact h)

/-- Every record collected while processing one database carries that
database's name and its once-per-connection version and extensions query
results. -/
theorem mem_processDb {cfg : ServerConfig} {w : ServerWorld} {db : String}
    {r : TableMetadata} (h : r ∈ (processDb cfg w db).1) :
    ∃ dbw version exts, w.dbConnect db = .ok dbw ∧ dbw.version = .ok version ∧
      dbw.extensions = .ok exts ∧ r.server = serverIdent cfg ∧ r.database = db ∧
      r.postgres_version = version ∧ r.extensions = exts := by
  rcases hconn : w.dbConnect db with e | dbw
  · simp [processDb, hconn] at h
  rcases hv : dbw.version with e | version
  · simp [processDb, hconn, hv] at h
  rcases hx : dbw.extensions with e | exts
  · simp [processDb, hconn, hv, hx] at h
  rcases ht : dbw.tables with e | tables
  · simp [processDb, hconn, hv, hx, ht] at h
  rcases hpt : processTables cfg db version exts dbw tables with ⟨rs, err⟩
  have hr : r ∈ rs := by
    cases err with
    | some e => simpa [processDb, hconn, hv, hx, ht, hpt] using h
    | none => simpa [processDb, hconn, hv, hx, ht, hpt] using h
  obtain ⟨schema, table, hok⟩ := mem_processTables (by rw [hpt]; exact hr)
  obtain ⟨hs, hdb, hpv, hex⟩ := processTable_ok_fields hok
  exact ⟨dbw, version, exts, rfl, hv, hx, hs, hdb, hpv, hex⟩

/-- Every record of the whole per-server loop came from processing some
database. -/
theorem mem_processDbs {cfg : ServerConfig} {w : ServerWorld} :
    ∀ {dbs : List String} {r : TableMetadata},
      r ∈ (processDbs cfg w dbs).1 → ∃ db, r ∈ (processDb cfg w db).1 := by
  intro dbs
  induction dbs with
  | nil => intro r h; simp [processDbs] at h
  | cons db dbs ih =>
    intro r h
    rcases hp : processDb cfg w db with ⟨rs, tr, err⟩
    cases err with
    | some e =>
      have hr : r ∈ rs := by simpa [processDbs, hp] using h
      exact ⟨db, by rw [hp]; exact hr⟩
    | none =>
      rcases hq : processDbs cfg w dbs with ⟨rs2, tr2, err2⟩
      simp only [processDbs, hp, hq] at h
      rcases List.mem_append.mp h with h1 | h2
      · exact ⟨db, by rw [hp]; exact h1⟩
      · exact ih (by rw [hq]; exact h2)

/-- Every record of a scan came from processing some database. -/
theorem mem_scanServer {cfg : ServerConfig} {w : ServerWorld} {r : TableMetadata}
    (h : r ∈ (scanServer cfg w).1) : ∃ db, r ∈ (processDb cfg w db).1 := by
  rcases ha : w.adminConnect with e | u
  · simp [scanServer, ha] at h
  rcases hl : w.listDatabases with e | dbs
  · simp [scanServer, ha, hl] at h
  rcases hq : processDbs cfg w dbs with ⟨rs, tr, err⟩
  have hr : r ∈ rs := by
    cases err with
    | some e => simpa [scanServer, ha, hl, hq] using h
    | none => simpa [scanServer, ha, hl, hq] using h
  exact mem_processDbs (by rw [hq]; exact hr)

/-- `connect_and_fetch` returns exactly the records the scan assembled. -/
theorem connect_and_fetch_records (cfg : ServerConfig) (w : ServerWorld) :
    (connect_and_fetch cfg w).1 = (scanServer cfg w).1 := by
  rcases h : scanServer cfg w with ⟨rs, tr, err⟩
  cases err <;> simp [connect_and_fetch, h]

/-- C9: any two records of one scan that share the (server, database) pair
carry identical `extensions` and identical `postgres_version` — both were
queried once per database connection and copied into each record. -/
theorem c9_denormalized_per_database (cfg : ServerConfig) (w : ServerWorld)
    (r1 r2 : TableMetadata) (h1 : r1 ∈ (connect_and_fetch cfg w).1)
    (h2 : r2 ∈ (connect_and_fetch cfg w).1)
    (_hserver : r1.server = r2.server) (hdb : r1.database = r2.database) :
    r1.extensions = r2.extensions ∧ r1.postgres_version = r2.postgres_version := by
  rw [connect_and_fetch_records] at h1 h2
  obtain ⟨db1, hm1⟩ := mem_scanServer h1
  obtain ⟨db2, hm2⟩ := mem_scanServer h2
  obtain ⟨dbw1, v1, x1, hc1, hv1, hx1, _, hdb1, hpv1, hex1⟩ := mem_processDb hm1
  obtain ⟨dbw2, v2, x2, hc2, hv2, hx2, _, hdb2, hpv2, hex2⟩ := mem_processDb hm2
  have hdbeq : db1 = db2 := by rw [← hdb1, ← hdb2, hdb]
  subst hdbeq
  rw [hc1] at hc2
  have hdbw := Except.ok.inj hc2
  subst hdbw
  rw [hv1] at hv2
  have hveq := Except.ok.inj hv2
  rw [hx1] at hx2
  have hxeq := Except.ok.inj hx2
  constructor
  · rw [hex1, hex2, hxeq]
  · rw [hpv1, hpv2, hveq]

theorem c9_witness :
    r9a.extensions = r9b.extensions ∧ r9a.postgres_version = r9b.postgres_version :=
  c9_denormalized_per_database cfg9 w9 r9a r9b (by decide) (by decide) rfl rfl

end DocGen
